import Mathlib

/-!
Verification development for the garmr FIT decoding and derived-metrics
pipeline (package `internal/fitx`, function `ParseFIT` with its helper
`calculateHRZones`, and package `internal/store`, method
`CalculateHRZonesForActivity`).

Modelling conventions:
* Go machine integers become `Nat`/`Int`.  Raw device fields (`uint32`,
  `uint16`, byte) are `Nat`; signed quantities (semicircles, time offsets,
  temperatures) are `Int`.
* `time.Time` values are modelled as `Int` nanoseconds since an epoch;
  `t.Sub(u).Seconds()` followed by Go's truncating `int(...)` conversion is
  `Int.tdiv (t - u) 1000000000` (truncation toward zero; the float64
  rounding of `Seconds()` cannot move the value across an integer for
  activity-scale durations, whose exact value is at least 1ns = 1e-9 away
  from an integer while the rounding error is below 1e-6 s only past
  2^53 ns, far beyond the 32-bit FIT timestamp range).
* Go `float64` fields (degrees, metres, m/s, training effect) become `ℚ`.
  Every float computation in the source is either exact in double
  precision (semicircle-to-degree scaling: `180/2^31` is a dyadic rational
  and products with 32-bit integers stay below `2^53`) or a comparison of
  a small integer against `float64(maxHR) * k/10`, which provably agrees
  with the exact rational comparison for byte-ranged inputs: thresholds
  that are exact integers round back to that integer (relative error
  `≤ 2^-52` is below the half-ulp bound `2^-53` relative only in
  appearance - the product of an exact double integer with the nearest
  double to `k/10` re-rounds to the integer), and non-integer thresholds
  sit at distance at least `1/10` from every integer, dwarfing the
  `≤ 2^-45` absolute rounding error.  The model therefore compares
  `10 * hr` against `k * maxHR` in exact integer arithmetic.
* Fallible Go code returning `(..., error)` becomes `Except`.
* The external FIT decoder (`github.com/tormoder/fit`) is modelled by its
  output: a `FitFile` of raw sessions, records and laps, wrapped in
  `Except DecodeError` to cover `os.Open` / `fit.Decode` / `fd.Activity`
  failures.
-/

namespace Garmr

/-- Raw record message as produced by the external FIT decoder
(`fit.RecordMsg` fields used by `ParseFIT`). -/
structure RawRecord where
  timestampNs : Int
  positionLat : Int
  positionLong : Int
  speed : Nat
  altitude : Nat
  heartRate : Nat
  cadence : Nat
  temperature : Int
  power : Nat
deriving DecidableEq, Repr

/-- Raw session message as produced by the external FIT decoder
(`fit.SessionMsg` fields used by `ParseFIT`). -/
structure RawSession where
  startTimeNs : Int
  sport : String
  subSport : String
  totalTimerTime : Nat
  totalDistance : Nat
  avgSpeed : Nat
  avgHeartRate : Nat
  maxHeartRate : Nat
  totalCalories : Nat
  totalAscent : Nat
  totalDescent : Nat
  totalTrainingEffect : Nat
  totalAnaerobicTrainingEffect : Nat
deriving DecidableEq, Repr

/-- Raw lap message as produced by the external FIT decoder
(`fit.LapMsg` fields used by `ParseFIT`). -/
structure RawLap where
  startTimeNs : Int
  totalTimerTime : Nat
  totalDistance : Nat
  avgSpeed : Nat
  avgHeartRate : Nat
  maxHeartRate : Nat
deriving DecidableEq, Repr

/-- Decoder output for one file (`fd.Activity()`: sessions, records, laps). -/
structure FitFile where
  sessions : List RawSession
  records : List RawRecord
  laps : List RawLap
deriving DecidableEq, Repr

/-- Decode-stage failures of `ParseFIT`: `os.Open` errors versus
`fit.Decode` / `fd.Activity()` errors. -/
inductive DecodeError where
  | unreadable : String → DecodeError
  | malformed : String → DecodeError
deriving DecidableEq, Repr

/-- The `fitx.Activity` struct (normalized session summary). -/
structure Activity where
  fitUID : Int
  startTimeUTC : Int
  sport : String
  subSport : String
  durationS : Nat
  distanceM : Nat
  avgHR : Nat
  maxHR : Nat
  avgSpeedMPS : ℚ
  calories : Nat
  ascentM : ℚ
  descentM : ℚ
  deviceVendor : String
  deviceModel : String
  aerobicTE : Option ℚ
  anaerobicTE : Option ℚ
deriving DecidableEq, Repr

/-- The `fitx.Record` struct (normalized per-tick sample). -/
structure Record where
  tOffsetS : Int
  lat : Option ℚ
  lon : Option ℚ
  elevM : Option ℚ
  hr : Option Int
  cad : Option Int
  tempC : Option ℚ
  powerW : Option Int
  speedMPS : Option ℚ
deriving DecidableEq, Repr

/-- The `fitx.Lap` struct (normalized lap summary). -/
structure Lap where
  index : Nat
  startOff : Int
  durS : Nat
  distM : Nat
  avgHR : Nat
  maxHR : Nat
  avgSpd : ℚ
deriving DecidableEq, Repr

/-- The `fitx.HRZone` struct. -/
structure HRZone where
  zone : Nat
  timeSeconds : Int
deriving DecidableEq, Repr

/-- Zone classification shared verbatim by both Go implementations
(`fit_reader.go` lines 207-213 and `db.go` lines 289-295): the first
`z < 5` with `hr ≥ zoneThresholds[z] && hr < zoneThresholds[z+1]`, where
`zoneThresholds[z] = float64(maxHR) * (5+z)/10`.  The loop over the
constant range 5 is unrolled; float comparisons are replaced by the exact
integer comparisons they agree with (see module comment). -/
def hrZoneIndex (hr maxHR : Int) : Option Nat :=
  if 5 * maxHR ≤ 10 * hr ∧ 10 * hr < 6 * maxHR then some 0
  else if 6 * maxHR ≤ 10 * hr ∧ 10 * hr < 7 * maxHR then some 1
  else if 7 * maxHR ≤ 10 * hr ∧ 10 * hr < 8 * maxHR then some 2
  else if 8 * maxHR ≤ 10 * hr ∧ 10 * hr < 9 * maxHR then some 3
  else if 9 * maxHR ≤ 10 * hr ∧ 10 * hr < 10 * maxHR then some 4
  else none

/-- One iteration of the pair loop of `calculateHRZones`
(`fit_reader.go` lines 195-218): skip when `curr.HR == nil`, otherwise
classify `curr`'s heart rate and add `next.TOffsetS - curr.TOffsetS` to
that zone's accumulator.  The Go `zoneTimes` array is modelled as a
function from the zone index. -/
def zoneStep (maxHR : Int) (ts : Nat → Int) (p : Record × Record) : Nat → Int :=
  match p.1.hr with
  | none => ts
  | some h =>
    match hrZoneIndex h maxHR with
    | none => ts
    | some z => fun i => if i = z then ts i + (p.2.tOffsetS - p.1.tOffsetS) else ts i

/-- Final emission loop shared by both Go implementations: zones 1-5 in
ascending order, keeping only strictly positive accumulated times. -/
def zonesFromTimes (t : Nat → Int) : List HRZone :=
  (List.range 5).filterMap fun i => if 0 < t i then some ⟨i + 1, t i⟩ else none

/-- The inline zone computation `calculateHRZones` of
`internal/fitx/fit_reader.go` (lines 172-232).  The Go index loop
`for i := 0; i < len(recs)-1; i++` over pairs `(recs[i], recs[i+1])` is
the fold over `recs.zip recs.tail`. -/
def calculateHRZones (recs : List Record) (maxHR : Int) : List HRZone :=
  if maxHR = 0 then []
  else zonesFromTimes ((recs.zip recs.tail).foldl (zoneStep maxHR) fun _ => 0)

/-- Row filter of `CalculateHRZonesForActivity`'s SQL query
(`db.go` lines 240-244): `hr IS NOT NULL AND hr != 255`.  A persisted row
is `(t_offset_s, hr-or-NULL)`. -/
def usableHR (row : Int × Option Int) : Option (Int × Int) :=
  match row.2 with
  | none => none
  | some h => if h = 255 then none else some (row.1, h)

/-- One iteration of the pair loop of `CalculateHRZonesForActivity`
(`db.go` lines 281-300); its records are already filtered, so there is no
nil-HR skip. -/
def storeZoneStep (maxHR : Int) (ts : Nat → Int)
    (p : (Int × Int) × (Int × Int)) : Nat → Int :=
  match hrZoneIndex p.1.2 maxHR with
  | none => ts
  | some z => fun i => if i = z then ts i + (p.2.1 - p.1.1) else ts i

/-- The standalone recomputation `CalculateHRZonesForActivity` of
`internal/store/db.go` (lines 234-325), restricted to its pure core: the
input is the activity's persisted `(t_offset_s, hr-or-NULL)` series in
offset order (the SQL `ORDER BY t_offset_s`), the output is the zone list
it would insert into `hr_zones` (ascending zone, positive times only). -/
def calculateHRZonesForActivity (rows : List (Int × Option Int)) (maxHR : Int) :
    List HRZone :=
  if maxHR = 0 then []
  else
    let records := rows.filterMap usableHR
    if records.length < 2 then []
    else zonesFromTimes ((records.zip records.tail).foldl (storeZoneStep maxHR) fun _ => 0)

/-- Contribution of one consecutive pair of the full record sequence to
zone index `i`, as the spec's algorithm words it (spec 4.2): present
reading at the first record of the pair, elapsed time attributed to the
band containing that reading. -/
def pairContrib (maxHR : Int) (i : Nat) (c n : Record) : Int :=
  match c.hr with
  | none => 0
  | some h =>
    match hrZoneIndex h maxHR with
    | none => 0
    | some z => if i = z then n.tOffsetS - c.tOffsetS else 0

/-- Spec-side accumulated time for zone index `i`: sum of the
contributions of all consecutive pairs of the full sequence. -/
def specZoneTime (recs : List Record) (maxHR : Int) (i : Nat) : Int :=
  ((recs.zip recs.tail).map fun p => pairContrib maxHR i p.1 p.2).sum

/-- Modelled from the spec: the zone calculator exactly as claim C2 words
it - iterate consecutive pairs of the full sequence, a pair contributes
when its first record carries a present reading, absent or trailing
records contribute nothing. -/
def specFullSequenceZones (recs : List Record) (maxHR : Int) : List HRZone :=
  if maxHR = 0 then [] else zonesFromTimes (specZoneTime recs maxHR)

/-- Contribution of one consecutive pair of the filtered (usable-only)
sequence to zone index `i`. -/
def storePairContrib (maxHR : Int) (i : Nat) (c n : Int × Int) : Int :=
  match hrZoneIndex c.2 maxHR with
  | none => 0
  | some z => if i = z then n.1 - c.1 else 0

/-- Spec-side accumulated time for zone index `i` over a filtered row
sequence. -/
def specStoreZoneTime (rs : List (Int × Int)) (maxHR : Int) (i : Nat) : Int :=
  ((rs.zip rs.tail).map fun p => storePairContrib maxHR i p.1 p.2).sum

/-- Declarative description of what the store implementation actually
computes: filter out absent and sentinel readings first, then iterate
consecutive pairs of the filtered sequence (so elapsed time between two
usable readings separated by absent ones is attributed wholly to the
earlier usable reading), guarded by the fewer-than-2-usable check. -/
def specFilteredPairZones (rows : List (Int × Option Int)) (maxHR : Int) :
    List HRZone :=
  if maxHR = 0 then []
  else
    let rs := rows.filterMap usableHR
    if rs.length < 2 then [] else zonesFromTimes (specStoreZoneTime rs maxHR)

/-- Record with only a time offset and an optional heart rate, every other
sample field absent - the shape relevant to the zone calculator. -/
def hrRec (t : Int) (h : Option Int) : Record :=
  { tOffsetS := t, lat := none, lon := none, elevM := none, hr := h,
    cad := none, tempC := none, powerW := none, speedMPS := none }

/-- Nanoseconds per second, the divisor hidden in Go's
`Duration.Seconds()`. -/
def nsPerSecond : Int := 1000000000

/-- Go's `int(b.Sub(a).Seconds())`: truncated (toward zero) whole seconds
between two instants. -/
def tOffsetOf (startNs tsNs : Int) : Int := (tsNs - startNs).tdiv nsPerSecond

/-- The constant `semicirclesToDeg = 180.0 / 2147483648.0` of
`fit_reader.go` line 10, exact as a rational (it is a dyadic rational, so
the double holds it exactly, and products with 32-bit semicircle values
stay below `2^53` and are exact as well). -/
def semicirclesToDeg : ℚ := 180 / 2147483648

/-- Position handling of `ParseFIT` (`fit_reader.go` lines 113-120): keep
latitude and longitude only when both raw semicircle values are nonzero
and the converted degrees lie inside geographic bounds; otherwise both are
dropped together. -/
def mkPos (rawLat rawLon : Int) : Option ℚ × Option ℚ :=
  if rawLat ≠ 0 ∧ rawLon ≠ 0 then
    let lat := (rawLat : ℚ) * semicirclesToDeg
    let lon := (rawLon : ℚ) * semicirclesToDeg
    if -90 ≤ lat ∧ lat ≤ 90 ∧ -180 ≤ lon ∧ lon ≤ 180 then (some lat, some lon)
    else (none, none)
  else (none, none)

/-- Per-record normalization of `ParseFIT` (`fit_reader.go` lines
108-144): offset from session start, guarded position, speed (scale 1000,
0 means absent), altitude (scale 5 offset 500, raw 0 means absent), heart
rate (0 and the 255 sentinel mean absent), cadence and power (0 means
absent), temperature (signed byte, 0 means absent). -/
def mkRecord (startNs : Int) (rr : RawRecord) : Record :=
  { tOffsetS := tOffsetOf startNs rr.timestampNs
    lat := (mkPos rr.positionLat rr.positionLong).1
    lon := (mkPos rr.positionLat rr.positionLong).2
    elevM := if rr.altitude ≠ 0 then some ((rr.altitude : ℚ) / 5 - 500) else none
    hr := if rr.heartRate ≠ 0 ∧ rr.heartRate ≠ 255 then some (rr.heartRate : Int) else none
    cad := if rr.cadence ≠ 0 then some (rr.cadence : Int) else none
    tempC := if rr.temperature ≠ 0 then some (rr.temperature : ℚ) else none
    powerW := if rr.power ≠ 0 then some (rr.power : Int) else none
    speedMPS := if rr.speed ≠ 0 then some ((rr.speed : ℚ) / 1000) else none }

/-- Go's `int(float64(x) / float64(scale))` for a raw `uint32` field:
truncation toward zero, which for non-negative input is the floor.  The
division is routed through `ℚ`, mirroring the float64 path; on the
`uint32` domain the float64 quotient never rounds across an integer (the
exact quotient is either an integer, reproduced exactly, or at least
`1/scale` away from one while the rounding error stays below `2^-30`). -/
def scaleTrunc (x scale : Nat) : Nat := Nat.floor ((x : ℚ) / (scale : ℚ))

/-- Heart-rate sentinel mapping used for the summary's and laps'
plain-integer fields: `if raw == 255 { 0 } else { int(raw) }`. -/
def sentinelHR (b : Nat) : Nat := if b = 255 then 0 else b

/-- Session normalization of `ParseFIT` (`fit_reader.go` lines 74-105).
The `FitUID` string `s.StartTime.UTC().Format(time.RFC3339Nano)` is
modelled by the start instant itself (the formatting is injective on
instants).  `DeviceVendor`/`DeviceModel` are declared in the Go struct but
never assigned by `ParseFIT`, so they stay at their zero value. -/
def mkActivity (s : RawSession) : Activity :=
  { fitUID := s.startTimeNs
    startTimeUTC := s.startTimeNs
    sport := s.sport
    subSport := s.subSport
    durationS := scaleTrunc s.totalTimerTime 1000
    distanceM := scaleTrunc s.totalDistance 100
    avgHR := sentinelHR s.avgHeartRate
    maxHR := sentinelHR s.maxHeartRate
    avgSpeedMPS := (s.avgSpeed : ℚ) / 1000
    calories := s.totalCalories
    ascentM := (s.totalAscent : ℚ)
    descentM := (s.totalDescent : ℚ)
    deviceVendor := ""
    deviceModel := ""
    aerobicTE :=
      if s.totalTrainingEffect ≠ 0 ∧ s.totalTrainingEffect ≠ 255 then
        some ((s.totalTrainingEffect : ℚ) / 10)
      else none
    anaerobicTE :=
      if s.totalAnaerobicTrainingEffect ≠ 0 ∧ s.totalAnaerobicTrainingEffect ≠ 255 then
        some ((s.totalAnaerobicTrainingEffect : ℚ) / 10)
      else none }

/-- Lap normalization of `ParseFIT` (`fit_reader.go` lines 147-162). -/
def mkLap (sessionStartNs : Int) (i : Nat) (lp : RawLap) : Lap :=
  { index := i
    startOff := tOffsetOf sessionStartNs lp.startTimeNs
    durS := scaleTrunc lp.totalTimerTime 1000
    distM := scaleTrunc lp.totalDistance 100
    avgHR := sentinelHR lp.avgHeartRate
    maxHR := sentinelHR lp.maxHeartRate
    avgSpd := (lp.avgSpeed : ℚ) / 1000 }

/-- Zero value of the Go `Activity` struct, returned on the empty-session
path. -/
def emptyActivity : Activity :=
  { fitUID := 0, startTimeUTC := 0, sport := "", subSport := "",
    durationS := 0, distanceM := 0, avgHR := 0, maxHR := 0,
    avgSpeedMPS := 0, calories := 0, ascentM := 0, descentM := 0,
    deviceVendor := "", deviceModel := "", aerobicTE := none,
    anaerobicTE := none }

/-- The four outputs of `ParseFIT`. -/
structure ParseResult where
  summary : Activity
  records : List Record
  laps : List Lap
  zones : List HRZone
deriving DecidableEq, Repr

/-- The pipeline `ParseFIT` of `internal/fitx/fit_reader.go` (lines
59-168).  The input is the decoder's outcome (`os.Open` / `fit.Decode` /
`fd.Activity()` folded into one `Except`): an error propagates with no
partial output; a decoded file with no sessions returns all-empty outputs
with no error; otherwise the summary comes from the first session, the
records and laps cover every record and lap message, and the zones are
computed inline from the normalized records and the summary's max HR. -/
def parseFIT (input : Except DecodeError FitFile) : Except DecodeError ParseResult :=
  match input with
  | .error e => .error e
  | .ok af =>
    match af.sessions with
    | [] => .ok ⟨emptyActivity, [], [], []⟩
    | s :: _ =>
      let meta := mkActivity s
      let recs := af.records.map (mkRecord s.startTimeNs)
      let laps := af.laps.enum.map fun p => mkLap s.startTimeNs p.1 p.2
      .ok ⟨meta, recs, laps, calculateHRZones recs (meta.maxHR : Int)⟩

/-- Record sequence of a parse outcome (empty on error). -/
def parsedRecords (input : Except DecodeError FitFile) : List Record :=
  match parseFIT input with
  | .ok r => r.records
  | .error _ => []

/-- Lap sequence of a parse outcome (empty on error). -/
def parsedLaps (input : Except DecodeError FitFile) : List Lap :=
  match parseFIT input with
  | .ok r => r.laps
  | .error _ => []

/-- Summary of a parse outcome (zero-valued on error). -/
def parsedSummary (input : Except DecodeError FitFile) : Activity :=
  match parseFIT input with
  | .ok r => r.summary
  | .error _ => emptyActivity

/-- Raw record carrying only a timestamp and a heart-rate byte, every
other raw field zero. -/
def rawAt (tsNs : Int) (hrByte : Nat) : RawRecord :=
  { timestampNs := tsNs, positionLat := 0, positionLong := 0, speed := 0,
    altitude := 0, heartRate := hrByte, cadence := 0, temperature := 0, power := 0 }

/-- Session with every raw field zero or empty. -/
def exMinimalSession : RawSession :=
  { startTimeNs := 0, sport := "", subSport := "", totalTimerTime := 0,
    totalDistance := 0, avgSpeed := 0, avgHeartRate := 0, maxHeartRate := 0,
    totalCalories := 0, totalAscent := 0, totalDescent := 0,
    totalTrainingEffect := 0, totalAnaerobicTrainingEffect := 0 }

/-- Session realizing the spec's numeric scenario: raw
`total_timer_time = 3661000`, `total_distance = 1005000`,
`avg_speed = 3500`. -/
def exScenarioSession : RawSession :=
  { startTimeNs := 0, sport := "running", subSport := "generic",
    totalTimerTime := 3661000, totalDistance := 1005000, avgSpeed := 3500,
    avgHeartRate := 150, maxHeartRate := 190, totalCalories := 500,
    totalAscent := 100, totalDescent := 90, totalTrainingEffect := 30,
    totalAnaerobicTrainingEffect := 10 }

/-- Session whose average heart rate is the 255 sentinel. -/
def exSession255 : RawSession := { exMinimalSession with avgHeartRate := 255 }

/-- Second session, differing from the scenario session, for the
multi-session file. -/
def exSessionB : RawSession := { exMinimalSession with startTimeNs := 99, maxHeartRate := 180 }

/-- Raw record whose heart-rate byte is 0. -/
def exRawHR0 : RawRecord := rawAt 0 0

/-- Raw record whose heart-rate byte is 70. -/
def exRawHR70 : RawRecord := rawAt 0 70

/-- Raw record with a valid position: latitude `2^29` semicircles (45°),
longitude `2^30` semicircles (90°). -/
def exRawPos : RawRecord := { rawAt 0 0 with positionLat := 536870912, positionLong := 1073741824 }

/-- Decoded file whose two records arrive with decreasing timestamps
(10 s, then 0 s). -/
def exFileUnordered : FitFile :=
  ⟨[exMinimalSession], [rawAt 10000000000 100, rawAt 0 100], []⟩

/-- Decoded file whose two records arrive with increasing timestamps. -/
def exFileOrdered : FitFile :=
  ⟨[exMinimalSession], [rawAt 0 100, rawAt 10000000000 100], []⟩

/-- Decoded file containing two session messages. -/
def exFileTwoSessions : FitFile :=
  ⟨[exScenarioSession, exSessionB], [rawAt 5000000000 120], []⟩

/-! ### Helper lemmas -/

/-- Pointwise value of the inline pair-loop fold: initial value plus the
sum of the pair contributions for that zone index. -/
theorem foldl_zoneStep_apply (maxHR : Int) (ps : List (Record × Record)) :
    ∀ (f : Nat → Int) (i : Nat),
      ps.foldl (zoneStep maxHR) f i
        = f i + (ps.map fun p => pairContrib maxHR i p.1 p.2).sum := by
  induction ps with
  | nil => intro f i; simp
  | cons p rest ih =>
    intro f i
    simp only [List.foldl_cons, List.map_cons, List.sum_cons]
    rw [ih]
    have hstep : zoneStep maxHR f p i = f i + pairContrib maxHR i p.1 p.2 := by
      rcases hh : p.1.hr with _ | h
      · simp [zoneStep, pairContrib, hh]
      · rcases hz : hrZoneIndex h maxHR with _ | z
        · simp [zoneStep, pairContrib, hh, hz]
        · by_cases hiz : i = z <;> simp [zoneStep, pairContrib, hh, hz, hiz]
    rw [hstep]; ring

/-- Pointwise value of the store pair-loop fold. -/
theorem foldl_storeZoneStep_apply (maxHR : Int) (ps : List ((Int × Int) × (Int × Int))) :
    ∀ (f : Nat → Int) (i : Nat),
      ps.foldl (storeZoneStep maxHR) f i
        = f i + (ps.map fun p => storePairContrib maxHR i p.1 p.2).sum := by
  induction ps with
  | nil => intro f i; simp
  | cons p rest ih =>
    intro f i
    simp only [List.foldl_cons, List.map_cons, List.sum_cons]
    rw [ih]
    have hstep : storeZoneStep maxHR f p i = f i + storePairContrib maxHR i p.1 p.2 := by
      rcases hz : hrZoneIndex p.1.2 maxHR with _ | z
      · simp [storeZoneStep, storePairContrib, hz]
      · by_cases hiz : i = z <;> simp [storeZoneStep, storePairContrib, hz, hiz]
    rw [hstep]; ring

/-- The inline calculator equals its declarative full-sequence-pairing
description. -/
theorem calculateHRZones_eq_specFull (recs : List Record) (maxHR : Int) :
    calculateHRZones recs maxHR = specFullSequenceZones recs maxHR := by
  unfold calculateHRZones specFullSequenceZones
  by_cases h : maxHR = 0
  · simp [h]
  · simp only [h, if_false]
    congr 1
    funext i
    rw [foldl_zoneStep_apply]
    simp [specZoneTime]

/-- The store recomputation equals its declarative filtered-pairing
description. -/
theorem calculateHRZonesForActivity_eq_specFiltered
    (rows : List (Int × Option Int)) (maxHR : Int) :
    calculateHRZonesForActivity rows maxHR = specFilteredPairZones rows maxHR := by
  unfold calculateHRZonesForActivity specFilteredPairZones
  by_cases h : maxHR = 0
  · simp [h]
  · simp only [h, if_false]
    by_cases hlen : (rows.filterMap usableHR).length < 2
    · simp [hlen]
    · simp only [hlen, if_false]
      congr 1
      funext i
      rw [foldl_storeZoneStep_apply]
      simp [specStoreZoneTime]

/-- Truncating (toward-zero) integer division is monotone in the
numerator for a positive divisor. -/
theorem tdiv_le_tdiv_of_le {a b c : Int} (hc : 0 < c) (h : a ≤ b) :
    a.tdiv c ≤ b.tdiv c := by
  have hna : (-a).tdiv c = -(a.tdiv c) := Int.neg_tdiv a c
  have hnb : (-b).tdiv c = -(b.tdiv c) := Int.neg_tdiv b c
  rcases le_or_lt 0 a with ha | ha
  · rw [Int.tdiv_eq_ediv ha hc.le, Int.tdiv_eq_ediv (ha.trans h) hc.le]
    exact Int.ediv_le_ediv hc h
  · rcases le_or_lt 0 b with hb | hb
    · have h1 : 0 ≤ (-a).tdiv c := Int.tdiv_nonneg (by omega) hc.le
      have h2 : 0 ≤ b.tdiv c := Int.tdiv_nonneg hb hc.le
      omega
    · have key : (-b).tdiv c ≤ (-a).tdiv c := by
        rw [Int.tdiv_eq_ediv (by omega) hc.le, Int.tdiv_eq_ediv (by omega) hc.le]
        exact Int.ediv_le_ediv hc (by omega)
      omega

/-! ### Claim theorems -/

/-- C1: the two zone computations do NOT agree on all identical inputs.
On the series `[(0 s, HR 140), (10 s, HR absent)]` with max HR 200, the
inline `calculateHRZones` attributes 10 s to zone 3 (the pair's first
record has a usable reading), while `CalculateHRZonesForActivity` filters
the absent reading away, is left with a single usable record, and returns
no zones. -/
theorem zone_dual_implementations_diverge :
    calculateHRZones [hrRec 0 (some 140), hrRec 10 none] 200 = [⟨3, 10⟩]
    ∧ calculateHRZonesForActivity [(0, some 140), (10, none)] 200 = [] := by decide

/-- C2: counterexample to full-sequence pairing for the standalone
recomputation.  On `[(0,140),(10,absent),(30,140)]` with max HR 200 the
claimed full-sequence pairing yields zone 3 = 10 s (only the pair
`(0,140)-(10,absent)` contributes), but the store implementation pairs the
filtered sequence `[(0,140),(30,140)]` and yields zone 3 = 30 s. -/
theorem store_pairs_filtered_not_full_sequence :
    calculateHRZonesForActivity [(0, some 140), (10, none), (30, some 140)] 200 = [⟨3, 30⟩]
    ∧ specFullSequenceZones [hrRec 0 (some 140), hrRec 10 none, hrRec 30 (some 140)] 200
        = [⟨3, 10⟩]
    ∧ calculateHRZonesForActivity [(0, some 140), (10, none), (30, some 140)] 200
        ≠ specFullSequenceZones [hrRec 0 (some 140), hrRec 10 none, hrRec 30 (some 140)] 200 := by
  decide

/-- C2 (amended): the inline calculator accumulates exactly per the
claimed full-sequence pairing (consecutive pairs of the full record
sequence, elapsed attributed to the band of the pair's first record when
its reading is present; absent and trailing records contribute nothing);
the standalone recomputation instead first filters out absent and
sentinel readings and pairs consecutive records of the filtered sequence,
so elapsed time spanning absent readings is attributed wholly to the
earlier usable reading. -/
theorem zone_pairing_semantics :
    (∀ (recs : List Record) (maxHR : Int),
        calculateHRZones recs maxHR = specFullSequenceZones recs maxHR)
    ∧ (∀ (rows : List (Int × Option Int)) (maxHR : Int),
        calculateHRZonesForActivity rows maxHR = specFilteredPairZones rows maxHR) :=
  ⟨calculateHRZones_eq_specFull, calculateHRZonesForActivity_eq_specFiltered⟩

/-- C3: counterexample to the inclusive top bound.  A reading exactly
equal to max HR is classified into no zone: with both samples at
HR = 200 = max HR, zone 5 receives nothing and the zone list is empty,
whereas the claim requires zone 5 = 10 s. -/
theorem hr_at_max_accumulates_nothing :
    calculateHRZones [hrRec 0 (some 200), hrRec 10 (some 200)] 200 = [] := by decide

/-- C3 (amended): for every positive max HR, the classification shared by
both implementations uses half-open bands
`[50%,60%) [60%,70%) [70%,80%) [80%,90%) [90%,100%)` of max HR - the top
band's upper bound is EXCLUSIVE like the others - so a reading at or
above max HR falls into no band and accumulates no time.  Stated over the
exact rational thresholds scaled by 10. -/
theorem hr_zone_top_band_exclusive (hr maxHR : Int) (z : Nat) (hpos : 0 < maxHR) :
    (hrZoneIndex hr maxHR = some z ↔
      z < 5 ∧ (5 + (z : Int)) * maxHR ≤ 10 * hr ∧ 10 * hr < (6 + (z : Int)) * maxHR)
    ∧ (maxHR ≤ hr → hrZoneIndex hr maxHR = none) := by
  constructor
  · by_cases hz5 : z < 5
    · interval_cases z <;>
        (unfold hrZoneIndex; split_ifs <;>
          simp only [Option.some.injEq, reduceCtorEq, false_iff, true_iff] <;>
          push_cast <;> norm_num <;> omega)
    · constructor
      · intro h
        exfalso
        unfold hrZoneIndex at h
        split_ifs at h <;> simp only [Option.some.injEq, reduceCtorEq] at h <;> omega
      · intro h
        exact absurd h.1 hz5
  · intro hge
    unfold hrZoneIndex
    split_ifs <;> first | rfl | (exfalso; omega)

/-- Witness for C3's amended theorem at HR 140, max HR 200, zone index 2. -/
theorem hr_zone_top_band_exclusive_witness :
    (hrZoneIndex 140 200 = some 2 ↔
      (2 : Nat) < 5 ∧ (5 + ((2 : Nat) : Int)) * 200 ≤ 10 * 140
        ∧ 10 * 140 < (6 + ((2 : Nat) : Int)) * 200)
    ∧ ((200 : Int) ≤ 140 → hrZoneIndex 140 200 = none) :=
  hr_zone_top_band_exclusive 140 200 2 (by decide)

/-- C4: counterexample to "fewer than 2 usable readings gives an empty
list" for the inline calculator: a single usable reading followed by an
absent one already accumulates 20 s in zone 3. -/
theorem single_usable_reading_yields_zone_time :
    calculateHRZones [hrRec 0 (some 150), hrRec 20 none] 200 = [⟨3, 20⟩] := by decide

/-- C4 (amended): both computations are total (never an error).  The
standalone recomputation returns an empty zone list whenever max HR is 0
or fewer than 2 records carry a usable reading, as claimed; the inline
computation returns an empty list whenever max HR is 0 or the sequence
has fewer than 2 records in total, but it can return zones from a single
usable reading when another record follows it. -/
theorem zone_empty_guards (recs : List Record) (rows : List (Int × Option Int)) (maxHR : Int) :
    (maxHR = 0 ∨ (rows.filterMap usableHR).length < 2 →
      calculateHRZonesForActivity rows maxHR = [])
    ∧ (maxHR = 0 ∨ recs.length < 2 → calculateHRZones recs maxHR = []) := by
  constructor
  · rintro (h0 | hlen)
    · simp [calculateHRZonesForActivity, h0]
    · by_cases h0 : maxHR = 0
      · simp [calculateHRZonesForActivity, h0]
      · simp [calculateHRZonesForActivity, h0, hlen]
  · rintro (h0 | hlen)
    · simp [calculateHRZones, h0]
    · unfold calculateHRZones
      split_ifs with h0
      · rfl
      · match recs, hlen with
        | [], _ => rfl
        | [a], _ => rfl
        | a :: b :: t, h => exact absurd h (by simp only [List.length_cons]; omega)

/-- Witness for C4's amended theorem: one persisted usable row, and one
in-memory record, each yield an empty zone list. -/
theorem zone_empty_guards_witness :
    calculateHRZonesForActivity [((0 : Int), some (140 : Int))] 200 = []
    ∧ calculateHRZones [hrRec 0 (some 150)] 200 = [] :=
  ⟨(zone_empty_guards [hrRec 0 (some 150)] [(0, some 140)] 200).1 (Or.inr (by decide)),
   (zone_empty_guards [hrRec 0 (some 150)] [(0, some 140)] 200).2 (Or.inr (by decide))⟩

/-- C5: counterexample to "0 normalizes to itself": a per-record raw
heart-rate byte of 0 is dropped (absent), not kept as a reading of 0. -/
theorem record_hr_zero_is_dropped :
    (mkRecord 0 exRawHR0).hr = none ∧ (mkRecord 0 exRawHR0).hr ≠ some 0 := by decide

/-- C5 (amended): 255 always normalizes to absent (0 in the summary's
plain-integer fields, omitted per record); in the summary fields every
other byte maps to itself, but in the per-record optional field the byte
0 is ALSO treated as absent and only 1-254 map to themselves. -/
theorem hr_sentinel_normalization (s : RawSession) (rr : RawRecord) (startNs : Int) :
    (s.avgHeartRate = 255 → (mkActivity s).avgHR = 0)
    ∧ (s.avgHeartRate ≠ 255 → (mkActivity s).avgHR = s.avgHeartRate)
    ∧ (s.maxHeartRate = 255 → (mkActivity s).maxHR = 0)
    ∧ (s.maxHeartRate ≠ 255 → (mkActivity s).maxHR = s.maxHeartRate)
    ∧ (rr.heartRate = 0 ∨ rr.heartRate = 255 → (mkRecord startNs rr).hr = none)
    ∧ (rr.heartRate ≠ 0 → rr.heartRate ≠ 255 →
        (mkRecord startNs rr).hr = some (rr.heartRate : Int)) := by
  refine ⟨fun h => ?_, fun h => ?_, fun h => ?_, fun h => ?_, fun h => ?_, fun h1 h2 => ?_⟩
  · simp [mkActivity, sentinelHR, h]
  · simp [mkActivity, sentinelHR, h]
  · simp [mkActivity, sentinelHR, h]
  · simp [mkActivity, sentinelHR, h]
  · rcases h with h | h <;> simp [mkRecord, h]
  · simp [mkRecord, h1, h2]

/-- Witness for C5's amended theorem: sentinel 255 in a summary field
maps to 0, and a plain byte 70 per record maps to itself. -/
theorem hr_sentinel_normalization_witness :
    (mkActivity exSession255).avgHR = 0 ∧ (mkRecord 0 exRawHR70).hr = some 70 :=
  ⟨(hr_sentinel_normalization exSession255 exRawHR70 0).1 rfl,
   (hr_sentinel_normalization exSession255 exRawHR70 0).2.2.2.2.2 (by decide) (by decide)⟩

/-- C6: a record stores a position exactly when both raw semicircle
values are nonzero and the converted latitude lies in [-90, 90] and the
converted longitude in [-180, 180]; latitude and longitude are present or
absent together, and when present they equal raw times `180/2^31`. -/
theorem position_both_axes_or_neither (startNs : Int) (rr : RawRecord) :
    ((mkRecord startNs rr).lat.isSome ↔ (mkRecord startNs rr).lon.isSome)
    ∧ ((mkRecord startNs rr).lat.isSome ↔
        (rr.positionLat ≠ 0 ∧ rr.positionLong ≠ 0 ∧
         -90 ≤ (rr.positionLat : ℚ) * semicirclesToDeg ∧
         (rr.positionLat : ℚ) * semicirclesToDeg ≤ 90 ∧
         -180 ≤ (rr.positionLong : ℚ) * semicirclesToDeg ∧
         (rr.positionLong : ℚ) * semicirclesToDeg ≤ 180))
    ∧ ((mkRecord startNs rr).lat.isSome →
        (mkRecord startNs rr).lat = some ((rr.positionLat : ℚ) * semicirclesToDeg) ∧
        (mkRecord startNs rr).lon = some ((rr.positionLong : ℚ) * semicirclesToDeg)) := by
  simp only [mkRecord, mkPos]
  split_ifs with h1 h2 <;> simp_all

/-- Witness for C6 at a record with latitude 45° and longitude 90°. -/
theorem position_both_axes_or_neither_witness :
    (mkRecord 0 exRawPos).lat = some ((exRawPos.positionLat : ℚ) * semicirclesToDeg)
    ∧ (mkRecord 0 exRawPos).lon = some ((exRawPos.positionLong : ℚ) * semicirclesToDeg) :=
  (position_both_axes_or_neither 0 exRawPos).2.2 (by
    have h := (position_both_axes_or_neither 0 exRawPos).2.1
    rw [h]
    refine ⟨by decide, by decide, ?_, ?_, ?_, ?_⟩ <;>
      norm_num [exRawPos, rawAt, semicirclesToDeg])

/-- C7: a decode-stage failure propagates as that error with no partial
output, while a decoded file with zero sessions returns all-empty outputs
with no error; the `Except` constructor distinguishes the two cases. -/
theorem empty_session_distinct_from_decode_error (e : DecodeError) (f : FitFile)
    (hf : f.sessions = []) :
    parseFIT (.error e) = .error e ∧
    parseFIT (.ok f) = .ok ⟨emptyActivity, [], [], []⟩ := by
  refine ⟨rfl, ?_⟩
  rcases f with ⟨ss, recs, laps⟩
  simp only at hf
  subst hf
  rfl

/-- Witness for C7 at a concrete decode error and the empty file. -/
theorem empty_session_distinct_from_decode_error_witness :
    parseFIT (.error (.malformed "bad header")) = .error (.malformed "bad header")
    ∧ parseFIT (.ok ⟨[], [], []⟩) = .ok ⟨emptyActivity, [], [], []⟩ :=
  empty_session_distinct_from_decode_error (.malformed "bad header") ⟨[], [], []⟩ rfl

/-- C8: for every raw session the normalized duration is raw
`total_timer_time` divided by 1000 truncated, the distance is raw
`total_distance` divided by 100 truncated, and the average speed is raw
`avg_speed` divided by 1000 exactly; on the spec's scenario session the
values are 3661 s, 10050 m and 3.5 m/s. -/
theorem scale_division_truncates :
    (∀ s : RawSession,
      (mkActivity s).durationS = s.totalTimerTime / 1000 ∧
      (mkActivity s).distanceM = s.totalDistance / 100 ∧
      (mkActivity s).avgSpeedMPS = (s.avgSpeed : ℚ) / 1000)
    ∧ (mkActivity exScenarioSession).durationS = 3661
    ∧ (mkActivity exScenarioSession).distanceM = 10050
    ∧ (mkActivity exScenarioSession).avgSpeedMPS = 7 / 2 := by
  have hgen : ∀ s : RawSession,
      (mkActivity s).durationS = s.totalTimerTime / 1000 ∧
      (mkActivity s).distanceM = s.totalDistance / 100 ∧
      (mkActivity s).avgSpeedMPS = (s.avgSpeed : ℚ) / 1000 := by
    intro s
    have hsc : ∀ x n : Nat, scaleTrunc x n = x / n := by
      intro x n
      unfold scaleTrunc
      rw [Nat.floor_div_nat, Nat.floor_natCast]
    exact ⟨hsc s.totalTimerTime 1000, hsc s.totalDistance 100, rfl⟩
  refine ⟨hgen, ?_, ?_, ?_⟩
  · rw [(hgen exScenarioSession).1]
    decide
  · rw [(hgen exScenarioSession).2.1]
    decide
  · rw [(hgen exScenarioSession).2.2]
    norm_num [exScenarioSession]

/-- C9: counterexample to unconditional monotonicity: when the decoder
yields records with decreasing timestamps, `parseFIT` preserves that
order and the offsets decrease. -/
theorem record_offsets_can_decrease :
    ¬ List.Chain' (fun a b : Int => a ≤ b)
      ((parsedRecords (.ok exFileUnordered)).map fun r => r.tOffsetS) := by
  have h : ((parsedRecords (.ok exFileUnordered)).map fun r => r.tOffsetS) = [10, 0] := by
    decide
  rw [h]
  intro hc
  have h1 : (10 : Int) ≤ 0 := (List.chain'_cons.mp hc).1
  omega

/-- C9 (amended): record offsets are monotonically non-decreasing
whenever the decoder yields records with non-decreasing timestamps;
`parseFIT` preserves decoder order and applies the monotone map
"truncated seconds since session start", but performs no sorting of its
own. -/
theorem offsets_monotone_of_decoder_order (f : FitFile) (s : RawSession)
    (rest : List RawSession) (hs : f.sessions = s :: rest)
    (hmono : List.Chain' (fun a b => a.timestampNs ≤ b.timestampNs) f.records) :
    List.Chain' (fun a b : Int => a ≤ b)
      ((parsedRecords (.ok f)).map fun r => r.tOffsetS) := by
  rcases f with ⟨ss, recs, laps⟩
  simp only at hs
  subst hs
  have hrec : parsedRecords (.ok ⟨s :: rest, recs, laps⟩)
      = recs.map (mkRecord s.startTimeNs) := rfl
  rw [hrec, List.map_map, List.chain'_map]
  refine List.Chain'.imp ?_ hmono
  intro a b hab
  exact tdiv_le_tdiv_of_le (by norm_num [nsPerSecond]) (by omega)

/-- Witness for C9's amended theorem on a file with ordered records. -/
theorem offsets_monotone_of_decoder_order_witness :
    List.Chain' (fun a b : Int => a ≤ b)
      ((parsedRecords (.ok exFileOrdered)).map fun r => r.tOffsetS) :=
  offsets_monotone_of_decoder_order exFileOrdered exMinimalSession [] rfl
    (List.chain'_cons.mpr
      ⟨by norm_num [exFileOrdered, rawAt, exMinimalSession], List.chain'_singleton _⟩)

/-- C10: with more than one session, the whole parse result equals the
parse of the file restricted to its first session (so the summary - start
time, max HR fed to the zones, everything - comes from the first session
only), while records and laps still cover every message in the file. -/
theorem summary_from_first_session_only (f : FitFile) (s : RawSession)
    (rest : List RawSession) (hs : f.sessions = s :: rest) :
    parseFIT (.ok f) = parseFIT (.ok ⟨[s], f.records, f.laps⟩)
    ∧ parsedSummary (.ok f) = mkActivity s
    ∧ (parsedRecords (.ok f)).length = f.records.length
    ∧ (parsedLaps (.ok f)).length = f.laps.length := by
  rcases f with ⟨ss, recs, laps⟩
  simp only at hs
  subst hs
  refine ⟨rfl, rfl, ?_, ?_⟩
  · simp [parsedRecords, parseFIT]
  · simp [parsedLaps, parseFIT]

/-- Witness for C10 on a two-session file. -/
theorem summary_from_first_session_only_witness :
    parseFIT (.ok exFileTwoSessions)
      = parseFIT (.ok ⟨[exScenarioSession], exFileTwoSessions.records, exFileTwoSessions.laps⟩)
    ∧ parsedSummary (.ok exFileTwoSessions) = mkActivity exScenarioSession
    ∧ (parsedRecords (.ok exFileTwoSessions)).length = exFileTwoSessions.records.length
    ∧ (parsedLaps (.ok exFileTwoSessions)).length = exFileTwoSessions.laps.length :=
  summary_from_first_session_only exFileTwoSessions exScenarioSession [exSessionB] rfl

end Garmr
